import Mathlib

/-!
# Verification of the LocalSFTPServer filesystem adapter

A shallow embedding of the repository's two modules,
`localsftpserver/stub_sftp.py` (the SFTP filesystem adapter,
`StubSFTPServer`) and `localsftpserver/sftp_server.py` (the server
lifecycle, `SFTPServer`), together with proofs about the embedded
definitions.

Host paths and client paths are modelled as `List Char` (Python `str`).
The Python standard-library path helpers used by the adapter
(`os.path.normpath`, `os.path.join`, `os.path.abspath`,
`os.path.dirname` in their POSIX form) are reproduced component by
component, because the adapter's containment policy is a *string*
computation whose exact lexical behaviour is what the specification
talks about.
-/

namespace LocalSFTP

/-- A path (Python `str`) as a list of characters. -/
abbrev Str := List Char

/-- Python `s.split('/')`: split a string at every `'/'`, keeping empty
pieces, so that `"".split('/') = [""]` and `"/a".split('/') = ["", "a"]`. -/
def splitOnSlash : Str → List Str
  | [] => [[]]
  | c :: cs =>
    let rest := splitOnSlash cs
    if c = '/' then [] :: rest
    else
      match rest with
      | [] => [[c]]
      | r :: rs => (c :: r) :: rs

/-- One step of `posixpath.normpath`'s component loop: skip `""` and `"."`,
append ordinary components, and let `".."` cancel the previous component
unless the path is relative and empty so far, or the previous component is
itself `".."`. -/
def normpathStep (initialSlashes : Nat) (acc : List Str) (comp : Str) : List Str :=
  if comp = [] ∨ comp = ['.'] then acc
  else if comp ≠ ['.', '.'] ∨ (initialSlashes = 0 ∧ acc = []) ∨
      acc.getLast? = some ['.', '.'] then acc ++ [comp]
  else acc.dropLast

/-- `posixpath.normpath`: purely lexical normalization — collapse `"."`,
`".."` and redundant separators, preserve one leading slash (or exactly two,
per POSIX), and return `"."` for an empty result. -/
def normpath (path : Str) : Str :=
  if path = [] then ['.']
  else
    let initialSlashes : Nat :=
      if List.isPrefixOf ['/'] path then
        if List.isPrefixOf ['/', '/'] path ∧ ¬ List.isPrefixOf ['/', '/', '/'] path
        then 2 else 1
      else 0
    let comps := splitOnSlash path
    let newComps := comps.foldl (normpathStep initialSlashes) []
    let joined := List.intercalate ['/'] newComps
    let result := List.replicate initialSlashes '/' ++ joined
    if result = [] then ['.'] else result

/-- `posixpath.join a b` for two arguments: an absolute `b` discards `a`;
otherwise `b` is appended, inserting a separator unless `a` is empty or
already ends in one. -/
def joinPath (a b : Str) : Str :=
  if List.isPrefixOf ['/'] b then b
  else if a = [] ∨ List.isSuffixOf ['/'] a then a ++ b
  else a ++ ['/'] ++ b

/-- `posixpath.abspath` with the process working directory passed
explicitly: join a relative path onto `cwd`, then normalize. -/
def abspath (cwd path : Str) : Str :=
  if List.isPrefixOf ['/'] path then normpath path
  else normpath (joinPath cwd path)

/-- The part of `posixpath.dirname` that takes everything up to and
including the last `'/'` of the string (Python `p[:p.rfind('/') + 1]`). -/
def takeThroughLastSlash : Str → Str
  | [] => []
  | c :: cs =>
    let rest := takeThroughLastSlash cs
    if rest = [] then (if c = '/' then ['/'] else [])
    else c :: rest

/-- `posixpath.dirname`: the head of the path up to the last separator,
with trailing separators stripped unless the head is all separators. -/
def dirname (p : Str) : Str :=
  let head := takeThroughLastSlash p
  if head ≠ [] ∧ ¬ head.all (fun c => c = '/') then
    (head.reverse.dropWhile (fun c => c = '/')).reverse
  else head

/-- `StubSFTPServer._realpath`: normalize the client path, join it onto the
root, make it absolute, and accept it only when the result has the root as
a *string* prefix (Python `absolute_path.startswith(self.ROOT)`); a failing
check raises `ValueError("Access denied: ...")`, modelled as `none`. -/
def realpath (root cwd path : Str) : Option Str :=
  let normalized := normpath path
  let fullPath := joinPath root normalized
  let absolutePath := abspath cwd fullPath
  if List.isPrefixOf root absolutePath then some absolutePath else none

/-- A host path lies inside the jailed root directory: it is the root
itself or a proper descendant of it (root followed by a separator). This is
the subtree meaning of "inside JailedRoot", as opposed to the string-prefix
test the code performs. -/
def insideRoot (root p : Str) : Bool :=
  p = root || List.isPrefixOf (root ++ ['/']) p

-- Sanity checks of the path model against Python's behaviour (CPython
-- posixpath): kept as `example`s so they are re-checked on every build.
example : splitOnSlash "/a/b".data = ["".data, "a".data, "b".data] := by decide
example : normpath "a/./b/../c".data = "a/c".data := by decide
example : normpath "../x".data = "../x".data := by decide
example : normpath "".data = ".".data := by decide
example : normpath "/tmp/jail/../jailbreak".data = "/tmp/jailbreak".data := by decide
example : joinPath "/tmp/jail".data "x".data = "/tmp/jail/x".data := by decide
example : joinPath "/tmp/jail".data "/x".data = "/x".data := by decide
example : dirname "/tmp/jail/a/b".data = "/tmp/jail/a".data := by decide
example : dirname "/x".data = "/".data := by decide
example : dirname "x".data = "".data := by decide
example : realpath "/tmp/jail".data "/".data "sub/../x".data
    = some "/tmp/jail/x".data := by decide
example : realpath "/tmp/jail".data "/".data "..".data = none := by decide
example : realpath "/tmp/jail".data "/".data "../jailbreak".data
    = some "/tmp/jailbreak".data := by decide

/-! ## Protocol and host constants

Numeric values of the POSIX errnos, the SFTP status codes and the
`os.open` flag bits that the adapter manipulates (Linux values, as used by
the host the server runs on). `O_BINARY` does not exist on POSIX, so
`getattr(os, "O_BINARY", 0)` yields `0`. -/

def EPERM : Nat := 1
def ENOENT : Nat := 2
def EACCES : Nat := 13
def EEXIST : Nat := 17
def EXDEV : Nat := 18
def ENOTDIR : Nat := 20
def ENOTEMPTY : Nat := 39

def SFTP_OK : Nat := 0
def SFTP_NO_SUCH_FILE : Nat := 2
def SFTP_PERMISSION_DENIED : Nat := 3
def SFTP_FAILURE : Nat := 4

def O_WRONLY : Nat := 1
def O_RDWR : Nat := 2
def O_CREAT : Nat := 64
def O_APPEND : Nat := 1024
def O_BINARY : Nat := 0

/-- `paramiko.SFTPAttributes.FLAG_PERMISSIONS`: the bit of `attr._flags`
recording that the attribute record carries permission bits. -/
def FLAG_PERMISSIONS : Nat := 4

/-- The fixed sentinel `"<error>"` written or returned in place of a
symlink target the adapter refuses to expose. -/
def sentinel : Str := "<error>".data

/-- Modelled from the spec: the transport library's errno-to-status
translation (`paramiko.SFTPServer.convert_errno`), which is not part of
this repository; per the spec, the protocol status is keyed by the host
error code, and an error code with no specific mapping goes to the generic
failure status. -/
def convert_errno (e : Nat) : Nat :=
  if e = EACCES ∨ e = EPERM then SFTP_PERMISSION_DENIED
  else if e = ENOENT ∨ e = ENOTDIR then SFTP_NO_SUCH_FILE
  else SFTP_FAILURE

/-! ## Attribute records, host calls and operation results -/

/-- The slice of a `paramiko.SFTPAttributes` record the adapter reads or
writes: the optional permission mode (`getattr(attr, "st_mode", None)`)
and the `_flags` bitmask. -/
structure AttrRec where
  st_mode : Option Nat
  aflags : Nat
deriving DecidableEq

/-- Python `attr._flags &= ~FLAG_PERMISSIONS` on a nonnegative bitmask:
clear the permissions bit, i.e. subtract the masked-out bit. -/
def stripPermissionsFlag (f : Nat) : Nat := f - (f &&& FLAG_PERMISSIONS)

/-- A call the adapter issues against the host filesystem, with the host
path (and arguments) it was issued for. -/
inductive HostCall where
  | listdirC : Str → HostCall
  | statC : Str → HostCall
  | lstatC : Str → HostCall
  | openC : Str → Nat → Nat → HostCall
  | fdopenC : Nat → Str → HostCall
  | removeC : Str → HostCall
  | renameC : Str → Str → HostCall
  | mkdirC : Str → HostCall
  | rmdirC : Str → HostCall
  | setAttrC : Str → AttrRec → HostCall
  | symlinkC : Str → Str → HostCall
  | readlinkC : Str → HostCall
deriving DecidableEq

/-- The outcome of one adapter operation, as observed by the caller:
a success payload, an SFTP status code produced by `convert_errno`, the
`ValueError` that `_realpath` raises on a failed containment check
(propagating uncaught out of the operation), or an `OSError` from a host
call that no `try`-block guards (also propagating uncaught). -/
inductive OpResult (α : Type) where
  | ok : α → OpResult α
  | status : Nat → OpResult α
  | accessDenied : OpResult α
  | uncaughtOS : Nat → OpResult α
deriving DecidableEq

/-- The behaviour of the host filesystem during one operation: each host
call either succeeds with its payload or fails with an errno. The adapter
is verified for every such behaviour. -/
structure HostFS where
  listdirE : Str → Except Nat (List Str)
  statEntry : Str → Except Nat AttrRec
  lstatEntry : Str → Except Nat AttrRec
  openE : Str → Nat → Nat → Except Nat Nat
  fdopenE : Nat → Except Nat Unit
  removeE : Str → Except Nat Unit
  renameE : Str → Str → Except Nat Unit
  mkdirE : Str → Except Nat Unit
  rmdirE : Str → Except Nat Unit
  setAttrE : Str → AttrRec → Except Nat Unit
  symlinkE : Str → Str → Except Nat Unit
  readlinkE : Str → Except Nat Str

/-! ## The adapter operations (`StubSFTPServer`)

Each operation first resolves its client path through `realpath` — in the
source this call stands *before* the `try` block, so its `ValueError`
propagates and no host call is made. Host failures inside the `try` block
are returned as `convert_errno(e.errno)`. Each embedded operation also
returns the list of host calls it performed. -/

/-- The body of `list_folder`'s loop: `os.lstat` each entry of the listing
(joined onto the directory) and attach the bare entry name; an `OSError`
aborts the loop and is reported for the whole operation. -/
def lstatEntries (fs : HostFS) (p : Str) :
    List Str → Except Nat (List (AttrRec × Str)) × List HostCall
  | [] => (.ok [], [])
  | n :: ns =>
    let q := joinPath p n
    match fs.lstatEntry q with
    | .error e => (.error e, [.lstatC q])
    | .ok a =>
      let rest := lstatEntries fs p ns
      (rest.1.map (fun l => (a, n) :: l), .lstatC q :: rest.2)

/-- `StubSFTPServer.list_folder`. -/
def list_folder (root cwd : Str) (fs : HostFS) (path : Str) :
    OpResult (List (AttrRec × Str)) × List HostCall :=
  match realpath root cwd path with
  | none => (.accessDenied, [])
  | some p =>
    match fs.listdirE p with
    | .error e => (.status (convert_errno e), [.listdirC p])
    | .ok names =>
      let r := lstatEntries fs p names
      match r.1 with
      | .error e => (.status (convert_errno e), .listdirC p :: r.2)
      | .ok out => (.ok out, .listdirC p :: r.2)

/-- `StubSFTPServer.stat` (the host `os.stat` follows the final symlink). -/
def statOp (root cwd : Str) (fs : HostFS) (path : Str) :
    OpResult AttrRec × List HostCall :=
  match realpath root cwd path with
  | none => (.accessDenied, [])
  | some p =>
    match fs.statEntry p with
    | .ok a => (.ok a, [.statC p])
    | .error e => (.status (convert_errno e), [.statC p])

/-- `StubSFTPServer.lstat` (the host `os.lstat` does not follow the final
symlink). -/
def lstatOp (root cwd : Str) (fs : HostFS) (path : Str) :
    OpResult AttrRec × List HostCall :=
  match realpath root cwd path with
  | none => (.accessDenied, [])
  | some p =>
    match fs.lstatEntry p with
    | .ok a => (.ok a, [.lstatC p])
    | .error e => (.status (convert_errno e), [.lstatC p])

/-- `StubSFTPServer.remove`. -/
def removeOp (root cwd : Str) (fs : HostFS) (path : Str) :
    OpResult Unit × List HostCall :=
  match realpath root cwd path with
  | none => (.accessDenied, [])
  | some p =>
    match fs.removeE p with
    | .ok _ => (.ok (), [.removeC p])
    | .error e => (.status (convert_errno e), [.removeC p])

/-- `StubSFTPServer.rename`: both endpoints are resolved (and may each
raise) before the host rename. -/
def renameOp (root cwd : Str) (fs : HostFS) (oldpath newpath : Str) :
    OpResult Unit × List HostCall :=
  match realpath root cwd oldpath with
  | none => (.accessDenied, [])
  | some po =>
    match realpath root cwd newpath with
    | none => (.accessDenied, [])
    | some pn =>
      match fs.renameE po pn with
      | .ok _ => (.ok (), [.renameC po pn])
      | .error e => (.status (convert_errno e), [.renameC po pn])

/-- `StubSFTPServer.mkdir`: `os.mkdir` then, if an attribute record was
supplied, `set_file_attr` — both inside the same `try` block. -/
def mkdirOp (root cwd : Str) (fs : HostFS) (path : Str) (attr : Option AttrRec) :
    OpResult Unit × List HostCall :=
  match realpath root cwd path with
  | none => (.accessDenied, [])
  | some p =>
    match fs.mkdirE p with
    | .error e => (.status (convert_errno e), [.mkdirC p])
    | .ok _ =>
      match attr with
      | none => (.ok (), [.mkdirC p])
      | some a =>
        match fs.setAttrE p a with
        | .ok _ => (.ok (), [.mkdirC p, .setAttrC p a])
        | .error e => (.status (convert_errno e), [.mkdirC p, .setAttrC p a])

/-- `StubSFTPServer.rmdir`. -/
def rmdirOp (root cwd : Str) (fs : HostFS) (path : Str) :
    OpResult Unit × List HostCall :=
  match realpath root cwd path with
  | none => (.accessDenied, [])
  | some p =>
    match fs.rmdirE p with
    | .ok _ => (.ok (), [.rmdirC p])
    | .error e => (.status (convert_errno e), [.rmdirC p])

/-- `StubSFTPServer.chattr`. -/
def chattrOp (root cwd : Str) (fs : HostFS) (path : Str) (attr : AttrRec) :
    OpResult Unit × List HostCall :=
  match realpath root cwd path with
  | none => (.accessDenied, [])
  | some p =>
    match fs.setAttrE p attr with
    | .ok _ => (.ok (), [.setAttrC p attr])
    | .error e => (.status (convert_errno e), [.setAttrC p attr])

/-- The handle `open` returns on success: the resolved host filename, the
flags, and the descriptor (the `readfile`/`writefile` stream is keyed by
the descriptor). -/
structure Handle where
  filename : Str
  hflags : Nat
  fd : Nat
deriving DecidableEq

/-- The `fopen` mode string `open` picks from the flag set
(`"wb"`/`"ab"`/`"r+b"`/`"a+b"`/`"rb"`). -/
def fstrOf (flags : Nat) : Str :=
  if flags &&& O_WRONLY ≠ 0 then
    (if flags &&& O_APPEND ≠ 0 then "ab".data else "wb".data)
  else if flags &&& O_RDWR ≠ 0 then
    (if flags &&& O_APPEND ≠ 0 then "a+b".data else "r+b".data)
  else "rb".data

/-- The tail of `open` after the (possible) `set_file_attr`: `os.fdopen`
in its own `try` block, then the handle is assembled and returned. -/
def finishOpen (fs : HostFS) (p : Str) (flags fd : Nat) (calls : List HostCall) :
    OpResult Handle × List HostCall :=
  match fs.fdopenE fd with
  | .error e => (.status (convert_errno e), calls ++ [.fdopenC fd (fstrOf flags)])
  | .ok _ => (.ok ⟨p, flags, fd⟩, calls ++ [.fdopenC fd (fstrOf flags)])

/-- Python `getattr(attr, "st_mode", None)`: the permission mode supplied
by the attribute record, if any. -/
def modeOf (attr : Option AttrRec) : Option Nat :=
  match attr with
  | some a => a.st_mode
  | none => none

/-- `StubSFTPServer.open` (named `openFile` because `open` is a Lean
keyword): resolve the path, use the supplied permission mode (or `0o666`
as the creation mode when the attribute record supplies none) and call
`os.open` inside a `try` block; then, when the flags request creation and
an attribute record is present, strip `FLAG_PERMISSIONS` from its `_flags`
and call `set_file_attr` — in the source this call stands *outside* every
`try` block, so its `OSError` propagates uncaught; finally `os.fdopen`
inside a second `try` block. -/
def openFile (root cwd : Str) (fs : HostFS) (path : Str) (flags : Nat)
    (attr : Option AttrRec) : OpResult Handle × List HostCall :=
  match realpath root cwd path with
  | none => (.accessDenied, [])
  | some p =>
    let flags2 := flags ||| O_BINARY
    let modeArg := (modeOf attr).getD 0o666
    match fs.openE p flags2 modeArg with
    | .error e => (.status (convert_errno e), [.openC p flags2 modeArg])
    | .ok fd =>
      if flags2 &&& O_CREAT ≠ 0 then
        match attr with
        | some a =>
          let a2 := { a with aflags := stripPermissionsFlag a.aflags }
          match fs.setAttrE p a2 with
          | .error e =>
            (.uncaughtOS e, [.openC p flags2 modeArg, .setAttrC p a2])
          | .ok _ =>
            finishOpen fs p flags2 fd [.openC p flags2 modeArg, .setAttrC p a2]
        | none => finishOpen fs p flags2 fd [.openC p flags2 modeArg]
      else finishOpen fs p flags2 fd [.openC p flags2 modeArg]

/-- The target-rewrite policy of `StubSFTPServer.symlink`: an absolute
client target (leading `'/'`) is joined onto the root, with the
double-slash artefact of `os.path.join` trimmed; a relative target is
joined (without normalization) onto the link's containing directory and
compared with the root by string slicing (`abspath[:len(ROOT)] != ROOT`),
the sentinel replacing it on a failed comparison. -/
def symlinkTargetOf (root linkHostPath targetPath : Str) : Str :=
  if targetPath.head? = some '/' then
    let t := joinPath root (targetPath.drop 1)
    if t.take 2 = ['/', '/'] then t.drop 1 else t
  else
    let joined := joinPath (dirname linkHostPath) targetPath
    if joined.take root.length ≠ root then sentinel else targetPath

/-- `StubSFTPServer.symlink`: resolve the link path (uncaught `ValueError`
on failure), rewrite the target per `symlinkTargetOf`, then `os.symlink`
inside a `try` block. -/
def symlinkOp (root cwd : Str) (fs : HostFS) (targetPath path : Str) :
    OpResult Unit × List HostCall :=
  match realpath root cwd path with
  | none => (.accessDenied, [])
  | some p =>
    let t := symlinkTargetOf root p targetPath
    match fs.symlinkE t p with
    | .ok _ => (.ok (), [.symlinkC t p])
    | .error e => (.status (convert_errno e), [.symlinkC t p])

/-- The result-rewrite policy of `StubSFTPServer.readlink`: a relative raw
target is returned as read; an absolute one whose first `len(ROOT)`
characters equal the root has that prefix stripped and a leading `'/'`
ensured, and any other absolute target becomes the sentinel. -/
def readlinkTransform (root rawTarget : Str) : Str :=
  if rawTarget.head? = some '/' then
    if rawTarget.take root.length = root then
      let s := rawTarget.drop root.length
      if s = [] ∨ s.head? ≠ some '/' then '/' :: s else s
    else sentinel
  else rawTarget

/-- `StubSFTPServer.readlink`: resolve the link path, `os.readlink` inside
a `try` block, then rewrite the raw target per `readlinkTransform`. -/
def readlinkOp (root cwd : Str) (fs : HostFS) (path : Str) :
    OpResult Str × List HostCall :=
  match realpath root cwd path with
  | none => (.accessDenied, [])
  | some p =>
    match fs.readlinkE p with
    | .error e => (.status (convert_errno e), [.readlinkC p])
    | .ok raw => (.ok (readlinkTransform root raw), [.readlinkC p])

/-! ## A concrete host filesystem with symlinks

For the claims about symlink *following* we instantiate the host with a
finite map from host paths to nodes, where the host `stat` follows a final
symlink (modelled from the spec: "stat follows the final symlink; lstat
does not"). -/

/-- A host filesystem node: a regular file (with a payload identifier), a
directory, or a symbolic link storing its raw target string. -/
inductive HNode where
  | file : Nat → HNode
  | dir : HNode
  | symlink : Str → HNode
deriving DecidableEq

/-- A finite host filesystem: an association list from host paths to
nodes. -/
abbrev HostMap := List (Str × HNode)

/-- Look a host path up in the finite host filesystem. -/
def lookupFS (m : HostMap) (p : Str) : Option HNode :=
  match m with
  | [] => none
  | (q, n) :: rest => if q = p then some n else lookupFS rest p

/-- Host `os.stat` over the finite filesystem: follow a final symlink to
the node stored at its raw target (targets are plain nodes in the maps we
consider). -/
def hstat (m : HostMap) (p : Str) : Option HNode :=
  match lookupFS m p with
  | some (.symlink t) => lookupFS m t
  | r => r

/-- The outcome of `stat` against the finite host filesystem. -/
inductive StatOutcome where
  | denied : StatOutcome
  | hostErr : StatOutcome
  | found : HNode → StatOutcome
deriving DecidableEq

/-- `StubSFTPServer.stat` composed with the finite host filesystem:
exactly `realpath` followed by the symlink-following host `stat`; the
resolution consults only the strings, never the filesystem. -/
def statFollow (root cwd : Str) (m : HostMap) (path : Str) : StatOutcome :=
  match realpath root cwd path with
  | none => .denied
  | some p =>
    match hstat m p with
    | none => .hostErr
    | some n => .found n

/-- Modelled from the host's POSIX call semantics (external to this
repository, like the spec's host `stat`): `open(2)` and
`chmod`/`chown`/`utime` dereference a final symbolic link, so the host
entry they act on is the link's raw target when the named path is a
symlink, and the named path itself otherwise. -/
def followFinal (m : HostMap) (p : Str) : Str :=
  match lookupFS m p with
  | some (.symlink t) => t
  | _ => p

/-- `StubSFTPServer.open` composed with the finite host filesystem: the
host entry the descriptor returned by `os.open` designates, namely the
final-symlink dereference of the lexically resolved path. -/
def openAffected (root cwd : Str) (m : HostMap) (path : Str) : Option Str :=
  (realpath root cwd path).map (followFinal m)

/-- `StubSFTPServer.chattr` composed with the finite host filesystem: the
host entry `set_file_attr`'s `chmod`/`chown`/`utime` calls act on, namely
the final-symlink dereference of the lexically resolved path. -/
def chattrAffected (root cwd : Str) (m : HostMap) (path : Str) : Option Str :=
  (realpath root cwd path).map (followFinal m)

/-- Modelled from the host's POSIX call semantics: `unlink(2)` (Python
`os.remove`) removes the named directory entry itself and never follows a
final symbolic link — deleting a symlink leaves its target untouched. -/
def hremove : HostMap → Str → HostMap
  | [], _ => []
  | (q, n) :: rest, p =>
    if q = p then hremove rest p else (q, n) :: hremove rest p

/-- `StubSFTPServer.remove` composed with the finite host filesystem: the
host filesystem after `os.remove` on the lexically resolved path (the
entry unlinked is that path itself, symlink or not). -/
def removeResolved (root cwd : Str) (m : HostMap) (path : Str) : Option HostMap :=
  (realpath root cwd path).map (hremove m)

/-! ## Server lifecycle and key management (`sftp_server.py`) -/

/-- The class-level state of `StubSFTPServer`: its single class attribute
`ROOT`, shared by every adapter instance and assigned by
`SFTPServer.__init__` (`StubSFTPServer.ROOT = self.root_path`). -/
structure StubClassState where
  ROOT : Str
deriving DecidableEq

/-- A private key file on disk, reduced to the properties the spec talks
about: the bit size of the generated pair, whether the encoding is PEM,
and whether the serialization is encrypted. -/
structure KeyFile where
  bits : Nat
  pemEncoding : Bool
  encryptedKey : Bool
deriving DecidableEq

/-- The key files present on disk: an association list from paths to key
files. -/
abbrev KeyStore := List (Str × KeyFile)

/-- Look a path up in the key store (Python `os.path.exists` plus the
file's content). -/
def lookupKey (ks : KeyStore) (p : Str) : Option KeyFile :=
  match ks with
  | [] => none
  | (q, k) :: rest => if q = p then some k else lookupKey rest p

/-- `SFTPServer.generate_rsa_key_pair`: generate an RSA pair of
`key_size` bits (2048 at the only call site) and write the private key at
`key_filename` in PEM encoding (`Encoding.PEM`,
`PrivateFormat.TraditionalOpenSSL`) with `NoEncryption`; `open(..., "wb")`
creates or truncates the file. -/
def generate_rsa_key_pair (ks : KeyStore) (key_filename : Str) (key_size : Nat) :
    KeyStore :=
  (key_filename, ⟨key_size, true, false⟩) :: ks

/-- The mutable state of one `SFTPServer` object. `thread` and
`server_socket` stand for the spawned thread object and the listening
socket (`some true` = an open socket); `start_timeout` is kept as an
abstract configuration value. -/
structure ServerState where
  key_filename : Str
  host : Str
  port : Nat
  level : Str
  server_socket : Option Bool
  is_running : Bool
  thread : Option Unit
  backlog : Nat
  start_timeout : Nat
  root_path : Str
deriving DecidableEq

/-- The default host, port and backlog of `sftp_server.py`. -/
def HOST : Str := "localhost".data
def PORT : Nat := 3373
def BACKLOG : Nat := 10

/-- `SFTPServer.__init__`: ensure a key file exists (generating a 2048-bit
pair when the configured path is absent, leaving an existing file alone),
fill the configuration fields with their defaults, and assign the *class*
attribute `StubSFTPServer.ROOT` from the chosen root path. Returns the new
object, the updated class state and the updated key store. -/
def serverInit (ks : KeyStore) (_g : StubClassState) (cwd : Str)
    (key_filename : Str) (hostArg : Option Str) (portArg : Option Nat)
    (level : Str) (backlog : Nat) (root_path : Str) (start_timeout : Nat) :
    ServerState × StubClassState × KeyStore :=
  let ks2 :=
    if lookupKey ks key_filename = none then
      generate_rsa_key_pair ks key_filename 2048
    else ks
  let lvl :=
    if level = "DEBUG".data ∨ level = "INFO".data ∨ level = "WARNING".data ∨
        level = "ERROR".data ∨ level = "CRITICAL".data
    then level else "INFO".data
  let rp := if root_path = [] then cwd else root_path
  (⟨key_filename, hostArg.getD HOST, portArg.getD PORT, lvl,
    none, false, none, backlog, start_timeout, rp⟩, ⟨rp⟩, ks2)

/-- `SFTPServer.start`: when already running, log and return with the
object untouched; otherwise set the running flag, spawn the accept-loop
thread and sleep for the startup delay. The method body contains no
statement that can raise. -/
def start (s : ServerState) : ServerState :=
  if s.is_running then s
  else { s with is_running := true, thread := some () }

/-- `SFTPServer.start_sync`: when already running, log and return with the
object untouched; otherwise set the running flag and run the accept loop
in the calling thread (which creates the listening socket). -/
def start_sync (s : ServerState) : ServerState :=
  if s.is_running then s
  else { s with is_running := true, server_socket := some true }

/-- `SFTPServer.stop`: when not running, log and return with the object
untouched; otherwise clear the running flag, close the listening socket if
one exists, and join the spawned thread. The method body contains no
statement that can raise. -/
def stop (s : ServerState) : ServerState :=
  if ¬ s.is_running then s
  else
    let s2 := { s with is_running := false }
    match s2.server_socket with
    | some _ => { s2 with server_socket := some false }
    | none => s2

/-- `start` lifted to the pair of object state and `StubSFTPServer` class
state: the method body contains no assignment to `StubSFTPServer.ROOT`, so
the class state passes through unchanged. -/
def startS (sg : ServerState × StubClassState) : ServerState × StubClassState :=
  (start sg.1, sg.2)

/-- `start_sync` lifted to the pair of object state and class state (its
body contains no assignment to `StubSFTPServer.ROOT`). -/
def start_syncS (sg : ServerState × StubClassState) :
    ServerState × StubClassState :=
  (start_sync sg.1, sg.2)

/-- `stop` lifted to the pair of object state and class state (its body
contains no assignment to `StubSFTPServer.ROOT`). -/
def stopS (sg : ServerState × StubClassState) : ServerState × StubClassState :=
  (stop sg.1, sg.2)

/-- A concrete running server object. -/
def runningState : ServerState :=
  ⟨"k".data, HOST, PORT, "INFO".data, some true, true, some (), 10, 1, "/r".data⟩

/-- A concrete idle server object. -/
def idleState : ServerState :=
  ⟨"k".data, HOST, PORT, "INFO".data, none, false, none, 10, 1, "/r".data⟩

/-- A concrete host filesystem holding, inside the jailed root, a symlink
whose target lies outside the root. -/
def fsWithOutsideLink : HostMap :=
  [("/tmp/jail/link".data, .symlink "/etc/passwd".data),
   ("/etc/passwd".data, .file 7)]

/-! ## Shared constants for concrete instances -/

/-- A concrete jailed root used by concrete instances. -/
def jailRoot : Str := "/tmp/jail".data

/-- A concrete process working directory. -/
def rootCwd : Str := "/".data

/-- A host filesystem on which every call succeeds. -/
def hostAllOk : HostFS :=
  ⟨fun _ => .ok [], fun _ => .ok ⟨none, 0⟩, fun _ => .ok ⟨none, 0⟩,
   fun _ _ _ => .ok 3, fun _ => .ok (), fun _ => .ok (), fun _ _ => .ok (),
   fun _ => .ok (), fun _ => .ok (), fun _ _ => .ok (), fun _ _ => .ok (),
   fun _ => .ok []⟩

/-- A host filesystem on which every call fails with errno 5 (`EIO`, an
errno with no specific protocol mapping). -/
def hostAllFail : HostFS :=
  ⟨fun _ => .error 5, fun _ => .error 5, fun _ => .error 5,
   fun _ _ _ => .error 5, fun _ => .error 5, fun _ => .error 5,
   fun _ _ => .error 5, fun _ => .error 5, fun _ => .error 5,
   fun _ _ => .error 5, fun _ _ => .error 5, fun _ => .error 5⟩

/-- A host filesystem on which only `set_file_attr` fails (with `EPERM`). -/
def hostSetAttrFails : HostFS := { hostAllOk with setAttrE := fun _ _ => .error EPERM }

/-! ## Helper lemmas -/

theorem isPrefixOf_slash_of_head_ne (l : Str) (h : l.head? ≠ some '/') :
    List.isPrefixOf ['/'] l = false := by
  cases l with
  | nil => rfl
  | cons c cs =>
    have hc : ¬ '/' = c := by
      intro he
      exact h (by simp [← he])
    simp [List.isPrefixOf, hc]

theorem take_of_isPrefixOf (root a b : Str) (h : List.isPrefixOf root a = true) :
    (a ++ b).take root.length = root := by
  have hp : root <+: a := by simpa using h
  obtain ⟨t, rfl⟩ := hp
  rw [List.append_assoc, List.take_left]

theorem joinPath_rel (a b : Str) (hb : b.head? ≠ some '/') (ha1 : a ≠ [])
    (ha2 : List.isSuffixOf ['/'] a = false) : joinPath a b = a ++ '/' :: b := by
  simp only [joinPath, isPrefixOf_slash_of_head_ne b hb, ha1, ha2]
  simp

theorem joinPath_keeps_root_start (root a b : Str) (hb : b.head? ≠ some '/')
    (h : List.isPrefixOf root a = true) :
    (joinPath a b).take root.length = root := by
  unfold joinPath
  rw [isPrefixOf_slash_of_head_ne b hb]
  simp only [Bool.false_eq_true, if_false]
  split
  · exact take_of_isPrefixOf root a b h
  · rw [List.append_assoc]
    exact take_of_isPrefixOf root a _ h

/-- Under an absolute root (leading slash not doubled, no trailing slash),
`symlink`'s rewrite of an absolute client target `t` produces exactly
`root ++ t`. -/
theorem symlinkTarget_abs (root link t : Str) (r1 : Char) (rs rest : Str)
    (hroot : root = '/' :: r1 :: rs) (hr1 : r1 ≠ '/')
    (hsuf : List.isSuffixOf ['/'] root = false)
    (ht : t = '/' :: rest) (hrest : rest.head? ≠ some '/') :
    symlinkTargetOf root link t = root ++ t := by
  subst hroot ht
  have hjoin : joinPath ('/' :: r1 :: rs) rest = ('/' :: r1 :: rs) ++ '/' :: rest :=
    joinPath_rel _ rest hrest (by simp) hsuf
  have htk : (('/' :: r1 :: rs) ++ '/' :: rest).take 2 = ['/', r1] := by simp
  simp only [symlinkTargetOf, List.head?, List.drop_succ_cons, List.drop_zero,
    Option.some.injEq, if_pos rfl, hjoin, htk]
  have hne : ¬ (['/', r1] = ['/', '/']) := by
    intro he
    exact hr1 (by injection he with h1 h2; injection h2)
  simp [hne]

/-! # Claims -/

/-- **C1** (amended): `_realpath`'s containment is a *string prefix* check:
every accepted client path yields a host path carrying the root as a string
prefix, and any client path whose normalized absolute form lacks that
prefix is rejected. (The original claim — that accepted paths always lie
inside the root *directory* — fails; see the counterexample.) -/
theorem realpath_containment_by_prefix_check (root cwd path : Str) :
    (∀ out, realpath root cwd path = some out → List.isPrefixOf root out = true) ∧
    (List.isPrefixOf root (abspath cwd (joinPath root (normpath path))) = false →
      realpath root cwd path = none) := by
  constructor
  · intro out h
    simp only [realpath] at h
    split at h
    · next hc =>
      cases h
      exact hc
    · cases h
  · intro h
    simp only [realpath, h]
    simp

theorem realpath_containment_by_prefix_check_witness :
    List.isPrefixOf jailRoot "/tmp/jail/x".data = true ∧
    realpath jailRoot rootCwd "..".data = none := by
  refine ⟨?_, ?_⟩
  · exact (realpath_containment_by_prefix_check jailRoot rootCwd "sub/../x".data).1
      "/tmp/jail/x".data (by decide)
  · exact (realpath_containment_by_prefix_check jailRoot rootCwd "..".data).2
      (by decide)

/-- **C1** counterexample: the client path `"../jailbreak"` resolves to the
host path `"/tmp/jailbreak"`, a sibling of the root `"/tmp/jail"` — outside
the jailed root directory — yet `_realpath` accepts and returns it, because
the sibling's name carries the root as a string prefix. -/
theorem realpath_returns_path_outside_root :
    realpath jailRoot rootCwd "../jailbreak".data = some "/tmp/jailbreak".data ∧
    insideRoot jailRoot "/tmp/jailbreak".data = false := by decide

/-- **C2** (amended): for every client path that *fails the string-prefix
containment check*, every adapter operation propagates the `AccessDenied`
rejection and performs no host filesystem call; the rejection is a
constructor distinct from every errno-derived status, in particular from
not-found. (The original claim — quantifying over every path whose
resolution escapes the root — fails, because prefix-sibling escapes pass
the check; see the counterexample.) -/
theorem escape_rejected_before_host_calls (root cwd : Str) (fs : HostFS)
    (path other : Str) (flags : Nat) (oattr : Option AttrRec) (attr : AttrRec)
    (h : realpath root cwd path = none) :
    list_folder root cwd fs path = (.accessDenied, []) ∧
    statOp root cwd fs path = (.accessDenied, []) ∧
    lstatOp root cwd fs path = (.accessDenied, []) ∧
    openFile root cwd fs path flags oattr = (.accessDenied, []) ∧
    removeOp root cwd fs path = (.accessDenied, []) ∧
    renameOp root cwd fs path other = (.accessDenied, []) ∧
    (∀ q, realpath root cwd other = some q →
      renameOp root cwd fs other path = (.accessDenied, [])) ∧
    mkdirOp root cwd fs path oattr = (.accessDenied, []) ∧
    rmdirOp root cwd fs path = (.accessDenied, []) ∧
    chattrOp root cwd fs path attr = (.accessDenied, []) ∧
    symlinkOp root cwd fs other path = (.accessDenied, []) ∧
    readlinkOp root cwd fs path = (.accessDenied, []) ∧
    (∀ s : Nat, (OpResult.accessDenied : OpResult Unit) ≠ OpResult.status s) := by
  refine ⟨?_, ?_, ?_, ?_, ?_, ?_, ?_, ?_, ?_, ?_, ?_, ?_, ?_⟩
  · simp [list_folder, h]
  · simp [statOp, h]
  · simp [lstatOp, h]
  · simp [openFile, h]
  · simp [removeOp, h]
  · simp [renameOp, h]
  · intro q hq
    simp [renameOp, hq, h]
  · simp [mkdirOp, h]
  · simp [rmdirOp, h]
  · simp [chattrOp, h]
  · simp [symlinkOp, h]
  · simp [readlinkOp, h]
  · intro s hcon
    exact OpResult.noConfusion hcon

theorem escape_rejected_before_host_calls_witness :
    removeOp jailRoot rootCwd hostAllOk "..".data = (.accessDenied, []) ∧
    renameOp jailRoot rootCwd hostAllOk "a".data "..".data = (.accessDenied, []) := by
  obtain ⟨-, -, -, -, h5, -, h7, -⟩ :=
    escape_rejected_before_host_calls jailRoot rootCwd hostAllOk "..".data
      "a".data 0 none ⟨none, 0⟩ (by decide)
  exact ⟨h5, h7 "/tmp/jail/a".data (by decide)⟩

/-- **C2** counterexample: the client path `"../jailbreak"` resolves outside
the jailed root, yet `remove` is *not* rejected: it issues the host call
`os.remove("/tmp/jailbreak")` against a path outside the root and reports
success. -/
theorem escaping_path_reaches_host_call :
    removeOp jailRoot rootCwd hostAllOk "../jailbreak".data
      = (.ok (), [.removeC "/tmp/jailbreak".data]) ∧
    insideRoot jailRoot "/tmp/jailbreak".data = false := by decide

/-- `readlink`'s rewrite undoes `symlink`'s absolute-target rewrite: reading
back `root ++ t` returns `t`, for an absolute root (single leading slash)
and a root-relative absolute target `t`. -/
theorem readlink_roundtrip_aux (root t : Str) (r1 : Char) (rs rest : Str)
    (h1 : root = '/' :: r1 :: rs) (h4 : t = '/' :: rest) :
    readlinkTransform root (root ++ t) = t := by
  have hhead : (root ++ t).head? = some '/' := by subst h1; rfl
  have htake : (root ++ t).take root.length = root := List.take_left root t
  have hdrop : (root ++ t).drop root.length = t := List.drop_left root t
  simp only [readlinkTransform, hhead, htake, hdrop, if_pos rfl]
  subst h4
  simp

/-- **C3** (amended): in `symlink(target, link_path)`, an absolute target is
rewritten to `root ++ target` (an absolute host path under the root); a
relative target is checked by comparing the *unnormalized* lexical join of
the link's containing directory and the target against the root string
prefix, so the sentinel is written only when that join lacks the prefix —
a relative target whose link directory lies under the root (string-prefix
sense) is written unchanged, even when its `..` components make its
resolution escape the root. (The original claim — sentinel whenever
resolution would escape — fails; see the counterexample.) -/
theorem symlink_sentinel_only_on_failed_join_check (root link link2 t u : Str) :
    (∀ (r1 : Char) (rs rest : Str), root = '/' :: r1 :: rs → r1 ≠ '/' →
      List.isSuffixOf ['/'] root = false → t = '/' :: rest →
      rest.head? ≠ some '/' →
      symlinkTargetOf root link t = root ++ t ∧
      List.isPrefixOf root (root ++ t) = true) ∧
    (u.head? ≠ some '/' → List.isPrefixOf root (dirname link) = true →
      symlinkTargetOf root link u = u) ∧
    (u.head? ≠ some '/' →
      (joinPath (dirname link2) u).take root.length ≠ root →
      symlinkTargetOf root link2 u = sentinel) := by
  refine ⟨?_, ?_, ?_⟩
  · intro r1 rs rest h1 h2 h3 h4 h5
    refine ⟨symlinkTarget_abs root link t r1 rs rest h1 h2 h3 h4 h5, ?_⟩
    simp
  · intro hu hd
    have hjoin : (joinPath (dirname link) u).take root.length = root :=
      joinPath_keeps_root_start root (dirname link) u hu hd
    simp [symlinkTargetOf, hu, hjoin]
  · intro hu hne
    simp [symlinkTargetOf, hu, hne]

theorem symlink_sentinel_only_on_failed_join_check_witness :
    symlinkTargetOf jailRoot "/tmp/jail/a/b".data "/sub/f".data
      = "/tmp/jail/sub/f".data ∧
    symlinkTargetOf jailRoot "/tmp/jail/a/b".data "../../x".data
      = "../../x".data ∧
    symlinkTargetOf jailRoot "/tmp/jail".data "../../x".data = sentinel := by
  obtain ⟨h1, h2, h3⟩ :=
    symlink_sentinel_only_on_failed_join_check jailRoot "/tmp/jail/a/b".data
      "/tmp/jail".data "/sub/f".data "../../x".data
  refine ⟨?_, h2 (by decide) (by decide), h3 (by decide) (by decide)⟩
  have h0 := (h1 't' "mp/jail".data "sub/f".data (by decide) (by decide)
    (by decide) (by decide) (by decide)).1
  rw [h0]
  decide

/-- **C3** counterexample: with root `"/tmp/jail"`, creating a symlink at
client path `"a/b"` with relative target `"../../x"` resolves (after
normalization) to `"/tmp/x"`, outside the jailed root — yet the target
written to the host is `"../../x"` itself, not the sentinel, because the
escape check compares the *unnormalized* join `"/tmp/jail/a/../../x"`
against the root prefix. -/
theorem symlink_escaping_relative_target_not_sentinel :
    symlinkOp jailRoot rootCwd hostAllOk "../../x".data "a/b".data
      = (.ok (), [.symlinkC "../../x".data "/tmp/jail/a/b".data]) ∧
    normpath (joinPath (dirname "/tmp/jail/a/b".data) "../../x".data)
      = "/tmp/x".data ∧
    insideRoot jailRoot "/tmp/x".data = false ∧
    "../../x".data ≠ sentinel := by decide

/-- **C4** (amended): `readlink` returns the raw host target for relative
links; an absolute raw target whose first `len(root)` characters equal the
root is rewritten root-relative (prefix stripped, leading separator
ensured), and this inverts `symlink`'s rewrite of root-relative absolute
targets (round trip); an absolute raw target *lacking the root string
prefix* yields the sentinel. (The original claim — sentinel for every
absolute target outside the root — fails on prefix-siblings of the root;
see the counterexample.) -/
theorem readlink_rewrite_by_prefix_check (root link raw raw2 t : Str) :
    (raw.head? ≠ some '/' → readlinkTransform root raw = raw) ∧
    (raw2.head? = some '/' → raw2.take root.length ≠ root →
      readlinkTransform root raw2 = sentinel) ∧
    (∀ (r1 : Char) (rs rest : Str), root = '/' :: r1 :: rs → r1 ≠ '/' →
      List.isSuffixOf ['/'] root = false → t = '/' :: rest →
      rest.head? ≠ some '/' →
      readlinkTransform root (symlinkTargetOf root link t) = t) := by
  refine ⟨?_, ?_, ?_⟩
  · intro hr
    simp [readlinkTransform, hr]
  · intro hr2 hne
    simp [readlinkTransform, hr2, hne]
  · intro r1 rs rest h1 h2 h3 h4 h5
    rw [symlinkTarget_abs root link t r1 rs rest h1 h2 h3 h4 h5]
    exact readlink_roundtrip_aux root t r1 rs rest h1 h4

theorem readlink_rewrite_by_prefix_check_witness :
    readlinkTransform jailRoot "rel/t".data = "rel/t".data ∧
    readlinkTransform jailRoot "/etc/passwd".data = sentinel ∧
    readlinkTransform jailRoot
      (symlinkTargetOf jailRoot "/tmp/jail/a".data "/sub/f".data)
      = "/sub/f".data := by
  obtain ⟨h1, h2, h3⟩ :=
    readlink_rewrite_by_prefix_check jailRoot "/tmp/jail/a".data "rel/t".data
      "/etc/passwd".data "/sub/f".data
  exact ⟨h1 (by decide), h2 (by decide) (by decide),
    h3 't' "mp/jail".data "sub/f".data (by decide) (by decide) (by decide)
      (by decide) (by decide)⟩

/-- **C4** counterexample: the raw host target `"/tmp/jailbreak"` is
absolute and lies *outside* the root `"/tmp/jail"`, but `readlink` returns
`"/break"` (the mis-stripped prefix-sibling) instead of the sentinel. -/
theorem readlink_prefix_sibling_not_sentinel :
    readlinkTransform jailRoot "/tmp/jailbreak".data = "/break".data ∧
    insideRoot jailRoot "/tmp/jailbreak".data = false ∧
    "/break".data ≠ sentinel := by decide

/-- Clearing the masked-out permissions bit really clears it: the stripped
flag word no longer has `FLAG_PERMISSIONS` set. -/
theorem stripPermissionsFlag_clears (f : Nat) :
    stripPermissionsFlag f &&& FLAG_PERMISSIONS = 0 := by
  have h4 : FLAG_PERMISSIONS = 2 ^ 2 := rfl
  rw [stripPermissionsFlag, h4, Nat.and_two_pow, Nat.and_two_pow]
  cases hb : f.testBit 2 with
  | false => simp [hb]
  | true =>
    have hf : f / 2 ^ 2 % 2 = 1 := by
      have hd := Nat.testBit_to_div_mod (x := f) (i := 2)
      rw [hb] at hd
      exact of_decide_eq_true hd.symm
    have h22 : (2 : Nat) ^ 2 = 4 := rfl
    rw [h22] at hf
    have hgoal : (f - Bool.toNat true * 2 ^ 2) / 2 ^ 2 % 2 = 0 := by
      rw [h22]
      simp only [Bool.toNat_true, one_mul]
      omega
    have hbit : (f - Bool.toNat true * 2 ^ 2).testBit 2 = false := by
      rw [Nat.testBit_to_div_mod, hgoal]
      rfl
    rw [hbit]
    simp

/-- When `_realpath` accepts, whatever the host then does, the first host
call `open` issues is `os.open` on the resolved path with the requested
flags and the mode derived from the attribute record (`0o666` default). -/
theorem openFile_trace_head (root cwd : Str) (fs : HostFS) (path : Str)
    (flags : Nat) (attr : Option AttrRec) (p : Str)
    (hp : realpath root cwd path = some p) :
    (openFile root cwd fs path flags attr).2.head? =
      some (.openC p (flags ||| O_BINARY) ((modeOf attr).getD 0o666)) := by
  simp only [openFile, hp]
  split
  · rfl
  · split
    · split
      · split
        · rfl
        · simp [finishOpen]
          split <;> rfl
      · simp [finishOpen]
        split <;> rfl
    · simp [finishOpen]
      split <;> rfl

/-- **C5** (confirmed): in `open(path, flags, attrs)`, when no permission
mode is supplied the creation mode passed to the host `os.open` is `0o666`,
not an unrestricted mode; and when the flags request creation (and an
attribute record is present), `FLAG_PERMISSIONS` is stripped from the
record's `_flags` before the record is passed to the later
`set_file_attr`, so the metadata application no longer carries the
permissions flag. -/
theorem open_default_mode_and_perm_strip (root cwd : Str) (fs : HostFS)
    (path : Str) (flags : Nat) (attr : Option AttrRec) (p : Str)
    (hp : realpath root cwd path = some p) :
    (modeOf attr = none →
      (openFile root cwd fs path flags attr).2.head? =
        some (.openC p (flags ||| O_BINARY) 0o666)) ∧
    (∀ a fd, attr = some a → (flags ||| O_BINARY) &&& O_CREAT ≠ 0 →
      fs.openE p (flags ||| O_BINARY) ((modeOf attr).getD 0o666) = .ok fd →
      (openFile root cwd fs path flags attr).2[1]? =
        some (.setAttrC p ⟨a.st_mode, stripPermissionsFlag a.aflags⟩) ∧
      stripPermissionsFlag a.aflags &&& FLAG_PERMISSIONS = 0) := by
  constructor
  · intro hm
    have h := openFile_trace_head root cwd fs path flags attr p hp
    rw [hm] at h
    exact h
  · intro a fd ha hcreat hopen
    refine ⟨?_, stripPermissionsFlag_clears a.aflags⟩
    subst ha
    simp only [openFile, hp, hopen, if_pos hcreat]
    split
    · rfl
    · simp [finishOpen]
      split <;> rfl

theorem open_default_mode_and_perm_strip_witness :
    (openFile jailRoot rootCwd hostAllOk "f.txt".data 65 (some ⟨none, 7⟩)).2.head?
      = some (.openC "/tmp/jail/f.txt".data (65 ||| O_BINARY) 0o666) ∧
    (openFile jailRoot rootCwd hostAllOk "f.txt".data 65 (some ⟨none, 7⟩)).2[1]?
      = some (.setAttrC "/tmp/jail/f.txt".data ⟨none, stripPermissionsFlag 7⟩) ∧
    stripPermissionsFlag 7 &&& FLAG_PERMISSIONS = 0 := by
  obtain ⟨h1, h2⟩ := open_default_mode_and_perm_strip jailRoot rootCwd hostAllOk
    "f.txt".data 65 (some ⟨none, 7⟩) "/tmp/jail/f.txt".data (by decide)
  obtain ⟨h2a, h2b⟩ := h2 ⟨none, 7⟩ 3 rfl (by decide) rfl
  exact ⟨h1 rfl, h2a, h2b⟩

/-- **C6** (amended): every host filesystem failure raised inside an
operation's guarded region is translated to the protocol status keyed by
the host error code by `convert_errno`, with unmapped error codes going to
the generic failure status, and no such failure escapes the operation as
an exception — with one exception the original claim misses: `open`'s
post-creation `set_file_attr` call stands outside every handler, so its
`OSError` escapes the adapter (see the counterexample). -/
theorem host_errors_translated (root cwd : Str) (fs : HostFS)
    (path other target : Str) (oattr : Option AttrRec) (attr : AttrRec)
    (flags : Nat) (p q : Str) (hp : realpath root cwd path = some p)
    (hq : realpath root cwd other = some q) :
    (∀ e, e ≠ EACCES → e ≠ EPERM → e ≠ ENOENT → e ≠ ENOTDIR →
      convert_errno e = SFTP_FAILURE) ∧
    (∀ e, fs.listdirE p = .error e →
      list_folder root cwd fs path = (.status (convert_errno e), [.listdirC p])) ∧
    (∀ e, fs.statEntry p = .error e →
      statOp root cwd fs path = (.status (convert_errno e), [.statC p])) ∧
    (∀ e, fs.lstatEntry p = .error e →
      lstatOp root cwd fs path = (.status (convert_errno e), [.lstatC p])) ∧
    (∀ e, fs.openE p (flags ||| O_BINARY) ((modeOf oattr).getD 0o666) = .error e →
      openFile root cwd fs path flags oattr = (.status (convert_errno e),
        [.openC p (flags ||| O_BINARY) ((modeOf oattr).getD 0o666)])) ∧
    (∀ e, fs.removeE p = .error e →
      removeOp root cwd fs path = (.status (convert_errno e), [.removeC p])) ∧
    (∀ e, fs.renameE p q = .error e →
      renameOp root cwd fs path other = (.status (convert_errno e), [.renameC p q])) ∧
    (∀ e, fs.mkdirE p = .error e →
      mkdirOp root cwd fs path oattr = (.status (convert_errno e), [.mkdirC p])) ∧
    (∀ e, fs.rmdirE p = .error e →
      rmdirOp root cwd fs path = (.status (convert_errno e), [.rmdirC p])) ∧
    (∀ e, fs.setAttrE p attr = .error e →
      chattrOp root cwd fs path attr = (.status (convert_errno e), [.setAttrC p attr])) ∧
    (∀ e, fs.symlinkE (symlinkTargetOf root p target) p = .error e →
      symlinkOp root cwd fs target path = (.status (convert_errno e),
        [.symlinkC (symlinkTargetOf root p target) p])) ∧
    (∀ e, fs.readlinkE p = .error e →
      readlinkOp root cwd fs path = (.status (convert_errno e), [.readlinkC p])) ∧
    (∀ e, (list_folder root cwd fs path).1 ≠ .uncaughtOS e) ∧
    (∀ e, (statOp root cwd fs path).1 ≠ .uncaughtOS e) ∧
    (∀ e, (lstatOp root cwd fs path).1 ≠ .uncaughtOS e) ∧
    (∀ e, (removeOp root cwd fs path).1 ≠ .uncaughtOS e) ∧
    (∀ e, (renameOp root cwd fs path other).1 ≠ .uncaughtOS e) ∧
    (∀ e, (mkdirOp root cwd fs path oattr).1 ≠ .uncaughtOS e) ∧
    (∀ e, (rmdirOp root cwd fs path).1 ≠ .uncaughtOS e) ∧
    (∀ e, (chattrOp root cwd fs path attr).1 ≠ .uncaughtOS e) ∧
    (∀ e, (symlinkOp root cwd fs target path).1 ≠ .uncaughtOS e) ∧
    (∀ e, (readlinkOp root cwd fs path).1 ≠ .uncaughtOS e) := by
  refine ⟨?_, ?_, ?_, ?_, ?_, ?_, ?_, ?_, ?_, ?_, ?_, ?_,
    ?_, ?_, ?_, ?_, ?_, ?_, ?_, ?_, ?_, ?_⟩
  · intro e h1 h2 h3 h4
    simp [convert_errno, h1, h2, h3, h4]
  · intro e he
    simp [list_folder, hp, he]
  · intro e he
    simp [statOp, hp, he]
  · intro e he
    simp [lstatOp, hp, he]
  · intro e he
    simp [openFile, hp, he]
  · intro e he
    simp [removeOp, hp, he]
  · intro e he
    simp [renameOp, hp, hq, he]
  · intro e he
    simp [mkdirOp, hp, he]
  · intro e he
    simp [rmdirOp, hp, he]
  · intro e he
    simp [chattrOp, hp, he]
  · intro e he
    simp [symlinkOp, hp, he]
  · intro e he
    simp [readlinkOp, hp, he]
  · intro e
    simp only [list_folder, hp]
    split
    · simp
    · split <;> simp
  · intro e
    simp only [statOp, hp]
    split <;> simp
  · intro e
    simp only [lstatOp, hp]
    split <;> simp
  · intro e
    simp only [removeOp, hp]
    split <;> simp
  · intro e
    simp only [renameOp, hp]
    split
    · simp
    · split <;> simp
  · intro e
    simp only [mkdirOp, hp]
    split
    · simp
    · split
      · simp
      · split <;> simp
  · intro e
    simp only [rmdirOp, hp]
    split <;> simp
  · intro e
    simp only [chattrOp, hp]
    split <;> simp
  · intro e
    simp only [symlinkOp, hp]
    split <;> simp
  · intro e
    simp only [readlinkOp, hp]
    split <;> simp

theorem host_errors_translated_witness :
    convert_errno 99 = SFTP_FAILURE ∧
    statOp jailRoot rootCwd hostAllFail "x".data
      = (.status SFTP_FAILURE, [.statC "/tmp/jail/x".data]) ∧
    removeOp jailRoot rootCwd hostAllFail "x".data
      = (.status SFTP_FAILURE, [.removeC "/tmp/jail/x".data]) := by
  obtain ⟨h1, -, h3, -, -, h6, -⟩ := host_errors_translated jailRoot rootCwd
    hostAllFail "x".data "y".data "t".data none ⟨none, 0⟩ 0
    "/tmp/jail/x".data "/tmp/jail/y".data (by decide) (by decide)
  have hc : convert_errno 5 = SFTP_FAILURE :=
    h1 5 (by decide) (by decide) (by decide) (by decide)
  have hs := h3 5 rfl
  have hr := h6 5 rfl
  rw [hc] at hs hr
  exact ⟨h1 99 (by decide) (by decide) (by decide) (by decide), hs, hr⟩

/-- **C6** counterexample: with creation requested and an attribute record
supplied, a host failure (`EPERM`) in `open`'s post-creation
`set_file_attr` escapes the adapter as an uncaught exception instead of
being translated to a protocol status — the call stands outside every
`try` block in the source. -/
theorem open_setattr_oserror_escapes :
    (openFile jailRoot rootCwd hostSetAttrFails "f.txt".data 65
        (some ⟨some 438, 4⟩)).1 = .uncaughtOS EPERM ∧
    (openFile jailRoot rootCwd hostSetAttrFails "f.txt".data 65
        (some ⟨some 438, 4⟩)).1 ≠ .status (convert_errno EPERM) := by decide

/-- **C7** (amended): the jailed root is assigned at server construction
(the class attribute `StubSFTPServer.ROOT` is set to the constructed
server's `root_path`), and no lifecycle operation — `start`, `start_sync`,
`stop` — touches it; but because it is a *class* attribute assigned on
every construction, a later construction of another server rebinds it for
all adapters (see the counterexample). -/
theorem root_fixed_by_lifecycle_set_by_construction
    (sg : ServerState × StubClassState) (ks : KeyStore) (g : StubClassState)
    (cwd kf rp lvl : Str) (hostArg : Option Str) (portArg : Option Nat)
    (bl st : Nat) :
    (startS sg).2 = sg.2 ∧ (start_syncS sg).2 = sg.2 ∧ (stopS sg).2 = sg.2 ∧
    ((serverInit ks g cwd kf hostArg portArg lvl bl rp st).2.1).ROOT
      = (serverInit ks g cwd kf hostArg portArg lvl bl rp st).1.root_path :=
  ⟨rfl, rfl, rfl, rfl⟩

/-- **C7** counterexample: constructing a second server with a different
root during the first server's lifetime overwrites the shared class
attribute `StubSFTPServer.ROOT`: after the second construction the class
root that the first server's sessions consult is `"/rootB"`, no longer the
first server's configured `"/rootA"` — other server activity *does* mutate
the adapter's jailed root. -/
theorem class_root_rebound_by_second_construction :
    (serverInit [] ⟨[]⟩ "/cwd".data "k1".data none none "INFO".data 10
        "/rootA".data 1).1.root_path = "/rootA".data ∧
    (serverInit
        (serverInit [] ⟨[]⟩ "/cwd".data "k1".data none none "INFO".data 10
          "/rootA".data 1).2.2
        (serverInit [] ⟨[]⟩ "/cwd".data "k1".data none none "INFO".data 10
          "/rootA".data 1).2.1
        "/cwd".data "k2".data none none "INFO".data 10 "/rootB".data 1).2.1.ROOT
      = "/rootB".data ∧
    "/rootB".data ≠ "/rootA".data := by decide

/-- Unlinking one host path leaves the entry at every other host path
untouched. -/
theorem lookupFS_hremove_ne (m : HostMap) (p q : Str) (h : q ≠ p) :
    lookupFS (hremove m p) q = lookupFS m q := by
  induction m with
  | nil => rfl
  | cons e rest ih =>
    obtain ⟨q0, n0⟩ := e
    simp only [hremove]
    by_cases he : q0 = p
    · rw [if_pos he, ih]
      have hq : ¬ q0 = q := by
        rw [he]
        exact fun hh => h hh.symm
      simp [lookupFS, hq]
    · rw [if_neg he]
      simp only [lookupFS]
      by_cases hq : q0 = q
      · simp [hq]
      · simp [hq, ih]

/-- **C8** (amended): `_realpath` is purely lexical — its acceptance of a
client path does not depend on the host filesystem at all — so a symlink
that sits inside the jailed root but points outside it passes the
containment check, and the operations whose host calls *follow the final
symlink* — `stat`, `open`, `chattr` — then act on the outside host target;
`remove`, however, unlinks the symlink entry itself and leaves the outside
target's entry untouched. (The original claim listed `remove` among the
following operations; see the counterexample.) -/
theorem symlink_following_ops_reach_outside_target (root cwd : Str)
    (m : HostMap) (vp hostp t : Str) (k : Nat)
    (h1 : realpath root cwd vp = some hostp)
    (h2 : insideRoot root hostp = true)
    (h3 : lookupFS m hostp = some (.symlink t))
    (h4 : insideRoot root t = false)
    (h5 : lookupFS m t = some (.file k)) :
    statFollow root cwd m vp = .found (.file k) ∧
    openAffected root cwd m vp = some t ∧
    chattrAffected root cwd m vp = some t ∧
    removeResolved root cwd m vp = some (hremove m hostp) ∧
    lookupFS (hremove m hostp) t = some (.file k) ∧
    (∀ m2 : HostMap, statFollow root cwd m2 vp ≠ .denied) := by
  have hne : t ≠ hostp := by
    intro he
    rw [he, h2] at h4
    cases h4
  refine ⟨?_, ?_, ?_, ?_, ?_, ?_⟩
  · simp [statFollow, h1, hstat, h3, h5]
  · simp [openAffected, h1, followFinal, h3]
  · simp [chattrAffected, h1, followFinal, h3]
  · simp [removeResolved, h1]
  · rw [lookupFS_hremove_ne m hostp t hne]
    exact h5
  · intro m2
    simp only [statFollow, h1]
    split <;> simp

theorem symlink_following_ops_reach_outside_target_witness :
    statFollow jailRoot rootCwd fsWithOutsideLink "link".data
      = .found (.file 7) ∧
    openAffected jailRoot rootCwd fsWithOutsideLink "link".data
      = some "/etc/passwd".data ∧
    chattrAffected jailRoot rootCwd fsWithOutsideLink "link".data
      = some "/etc/passwd".data ∧
    lookupFS (hremove fsWithOutsideLink "/tmp/jail/link".data)
      "/etc/passwd".data = some (.file 7) := by
  obtain ⟨w1, w2, w3, -, w5, -⟩ :=
    symlink_following_ops_reach_outside_target jailRoot rootCwd
      fsWithOutsideLink "link".data "/tmp/jail/link".data "/etc/passwd".data 7
      (by decide) (by decide) (by decide) (by decide) (by decide)
  exact ⟨w1, w2, w3, w5⟩

/-- **C8** counterexample: `remove` does *not* act on the outside host
target. Removing the in-root symlink `"link"` (which points at
`"/etc/passwd"`, outside the root) unlinks only the symlink's own entry
`"/tmp/jail/link"`: the resulting host filesystem still contains the
outside target `"/etc/passwd"` unchanged. -/
theorem remove_unlinks_link_not_outside_target :
    removeResolved jailRoot rootCwd fsWithOutsideLink "link".data
      = some [("/etc/passwd".data, HNode.file 7)] ∧
    lookupFS (hremove fsWithOutsideLink "/tmp/jail/link".data)
      "/etc/passwd".data = some (.file 7) ∧
    insideRoot jailRoot "/etc/passwd".data = false ∧
    insideRoot jailRoot "/tmp/jail/link".data = true := by decide

/-- **C9** (confirmed): `start` and `start_sync` called on a running
server, and `stop` called on a server that is not running, log and return
with every field of the server object unchanged; the guard branches
contain no raising statement. -/
theorem lifecycle_noop_guards (s r : ServerState)
    (hs : s.is_running = true) (hr : r.is_running = false) :
    start s = s ∧ start_sync s = s ∧ stop r = r := by
  refine ⟨?_, ?_, ?_⟩ <;> simp [start, start_sync, stop, hs, hr]

theorem lifecycle_noop_guards_witness :
    start runningState = runningState ∧
    start_sync runningState = runningState ∧
    stop idleState = idleState :=
  lifecycle_noop_guards runningState idleState rfl rfl

/-- **C10** (confirmed): when the configured key file path is absent at
construction, `__init__` generates a 2048-bit RSA pair (2048 ≥ 2048) and
writes the private key there in unencrypted PEM encoding, so a key file
exists at the path afterwards; when a file is already present, the key
store is left completely unchanged — whatever the file's content, no
validation is performed. -/
theorem key_generated_iff_absent (ks1 ks2 : KeyStore) (g1 g2 : StubClassState)
    (cwd kf1 kf2 : Str) (hostArg : Option Str) (portArg : Option Nat)
    (lvl rp : Str) (bl st : Nat) (v : KeyFile)
    (habsent : lookupKey ks1 kf1 = none)
    (hpresent : lookupKey ks2 kf2 = some v) :
    lookupKey (serverInit ks1 g1 cwd kf1 hostArg portArg lvl bl rp st).2.2 kf1
      = some ⟨2048, true, false⟩ ∧
    (2048 : Nat) ≥ 2048 ∧
    (serverInit ks2 g2 cwd kf2 hostArg portArg lvl bl rp st).2.2 = ks2 := by
  refine ⟨?_, le_refl _, ?_⟩
  · simp [serverInit, habsent, generate_rsa_key_pair, lookupKey]
  · simp [serverInit, hpresent]

theorem key_generated_iff_absent_witness :
    lookupKey (serverInit [] ⟨[]⟩ "/cwd".data "k1".data none none "INFO".data
      10 "/r".data 1).2.2 "k1".data = some ⟨2048, true, false⟩ ∧
    (serverInit [("k2".data, (⟨1024, false, true⟩ : KeyFile))] ⟨[]⟩
      "/cwd".data "k2".data none none "INFO".data 10 "/r".data 1).2.2
      = [("k2".data, (⟨1024, false, true⟩ : KeyFile))] := by
  obtain ⟨h1, -, h3⟩ := key_generated_iff_absent []
    [("k2".data, (⟨1024, false, true⟩ : KeyFile))] ⟨[]⟩ ⟨[]⟩ "/cwd".data
    "k1".data "k2".data none none "INFO".data "/r".data 10 1
    ⟨1024, false, true⟩ (by decide) (by decide)
  exact ⟨h1, h3⟩

end LocalSFTP
